import Mathlib

/-!
Shallow embedding of `src/src/utils/dataset.py` from the
Imitation-Learning-OpenAI-Gym-Car-Race repository, together with theorems
settling the frozen claims about the bounded multi-stream dataset, the
action-space codec and the observation mask extraction.

Floating point numbers are modelled by the rationals, numpy arrays by lists
or by dimension-annotated index functions.  Python exceptions are modelled by
explicit error sums.
-/

namespace CarRace

/-- Error taxonomy for record preprocessing.  `lengthError` models the numpy
`ValueError` raised by `np.concatenate` on mismatched first dimensions;
`validationError` models the `AssertionError` raised by the throttle/brake
mutual-exclusion assert in `convert_action_gym_to_models`. -/
inductive PError where
  | lengthError : PError
  | validationError : PError
deriving DecidableEq, Repr

/-- Errors surfaced by `AbstractDataset.__getitem__`: `indexError` models the
Python `IndexError` of an out-of-range container access, `stateError` models
the `AttributeError` raised when `instance_weights` was never computed. -/
inductive GetError where
  | indexError : GetError
  | stateError : GetError
deriving DecidableEq, Repr

/-- One row of a gym-space action batch: (steer, throttle, brake). -/
abbrev GymRow := ℚ × ℚ × ℚ

/-- One row of a model-space action batch: (steer, signed acceleration). -/
abbrev ModelRow := ℚ × ℚ

/-- The predicate of the assert in `convert_action_gym_to_models`
(line 27-29 of dataset.py): a row is rejected when both the throttle and the
brake entry are strictly positive. -/
def badRow (t : GymRow) : Bool :=
  decide (0 < t.2.1) && decide (0 < t.2.2)

/-- Row conversion of `convert_action_gym_to_models` (lines 30-32):
steering is kept, the acceleration is throttle minus brake. -/
def actionRow (t : GymRow) : ModelRow := (t.1, t.2.1 - t.2.2)

/-- `convert_action_gym_to_models` (dataset.py lines 17-33).  The numpy
`assert not np.any((action[:,1] > 0) & (action[:,2] > 0))` is the `any`
guard; on success every row becomes `(steer, throttle - brake)`. -/
def convert_action_gym_to_models (a : List GymRow) : Except PError (List ModelRow) :=
  if a.any badRow then Except.error PError.validationError
  else Except.ok (a.map actionRow)

/-- Row conversion of `convert_action_models_to_gym` (lines 48-51): the
positive part of the acceleration goes to the throttle channel, the negative
part (negated) to the brake channel, starting from a zero-filled array. -/
def modelsToGymRow (p : ModelRow) : GymRow :=
  (p.1, if 0 ≤ p.2 then p.2 else 0, if p.2 < 0 then -p.2 else 0)

/-- `convert_action_models_to_gym` (dataset.py lines 36-52). -/
def convert_action_models_to_gym (outputs : List ModelRow) : List GymRow :=
  outputs.map modelsToGymRow

lemma badRow_modelsToGymRow (p : ModelRow) : badRow (modelsToGymRow p) = false := by
  rcases p with ⟨s, a⟩
  by_cases h : 0 ≤ a
  · simp [badRow, modelsToGymRow, h, not_lt.mpr h]
  · simp [badRow, modelsToGymRow, h, le_of_lt (not_le.mp h)]

lemma actionRow_modelsToGymRow (p : ModelRow) : actionRow (modelsToGymRow p) = p := by
  rcases p with ⟨s, a⟩
  by_cases h : 0 ≤ a
  · simp [actionRow, modelsToGymRow, h, not_lt.mpr h]
  · have h' : a < 0 := not_le.mp h
    simp [actionRow, modelsToGymRow, h, h']

lemma badRow_eq_true_iff (t : GymRow) : badRow t = true ↔ (0 < t.2.1 ∧ 0 < t.2.2) := by
  unfold badRow
  simp

lemma convert_models_any_false (x : List ModelRow) :
    (convert_action_models_to_gym x).any badRow = false := by
  unfold convert_action_models_to_gym
  induction x with
  | nil => rfl
  | cons p ps ih => simp [badRow_modelsToGymRow p, ih]

/-- The success case of `convert_action_gym_to_models`: when no row has both
throttle and brake strictly positive the conversion returns the mapped rows. -/
lemma convert_eq_ok (a : List GymRow) (h : ∀ t ∈ a, ¬(0 < t.2.1 ∧ 0 < t.2.2)) :
    convert_action_gym_to_models a = Except.ok (a.map actionRow) := by
  unfold convert_action_gym_to_models
  have hany : a.any badRow = false := by
    rw [List.any_eq_false]
    intro t ht hbad
    exact h t ht ((badRow_eq_true_iff t).mp hbad)
  rw [hany]
  simp

lemma convert_error_iff (a : List GymRow) :
    convert_action_gym_to_models a = Except.error PError.validationError ↔
      ∃ t ∈ a, 0 < t.2.1 ∧ 0 < t.2.2 := by
  unfold convert_action_gym_to_models
  by_cases h : a.any badRow = true
  · rw [if_pos h]
    rw [List.any_eq_true] at h
    obtain ⟨t, ht, hbad⟩ := h
    simp only [true_iff]
    exact ⟨t, ht, (badRow_eq_true_iff t).mp hbad⟩
  · rw [if_neg h]
    constructor
    · intro hcontra
      exact Except.noConfusion hcontra
    · rintro ⟨t, ht, h1, h2⟩
      exact absurd (List.any_eq_true.mpr ⟨t, ht, (badRow_eq_true_iff t).mpr ⟨h1, h2⟩⟩) h

/-- Claim C3: for every batch of 2-channel model-space rows,
`toModelSpace (toEnvSpace x) = x`; consequently for every valid batch of
3-channel rows (throttle times brake is zero in every row), applying
`toModelSpace` after `toEnvSpace ∘ toModelSpace` reproduces `toModelSpace a`. -/
theorem C3_round_trip :
    (∀ x : List ModelRow,
      convert_action_gym_to_models (convert_action_models_to_gym x) = Except.ok x)
    ∧ ∀ a : List GymRow, (∀ t ∈ a, t.2.1 * t.2.2 = 0) →
        ∀ m, convert_action_gym_to_models a = Except.ok m →
          convert_action_gym_to_models (convert_action_models_to_gym m) = Except.ok m := by
  have part1 : ∀ x : List ModelRow,
      convert_action_gym_to_models (convert_action_models_to_gym x) = Except.ok x := by
    intro x
    unfold convert_action_gym_to_models
    rw [convert_models_any_false, if_neg (by simp)]
    unfold convert_action_models_to_gym
    rw [List.map_map]
    congr 1
    have : (actionRow ∘ modelsToGymRow) = id := by
      funext p
      exact actionRow_modelsToGymRow p
    rw [this, List.map_id]
  exact ⟨part1, fun a _ m _ => part1 m⟩

/-- Witness for C3 at a concrete valid batch. -/
theorem C3_round_trip_witness :
    convert_action_gym_to_models
        (convert_action_models_to_gym [((1 : ℚ), (2 : ℚ))]) =
      Except.ok [((1 : ℚ), (2 : ℚ))] :=
  C3_round_trip.2 [((1 : ℚ), (2 : ℚ), (0 : ℚ))]
    (by intro t ht; rw [List.mem_singleton] at ht; subst ht; norm_num)
    [((1 : ℚ), (2 : ℚ))]
    (by rw [convert_eq_ok _ (by decide)]; simp [actionRow])

/-- Claim C4: `toModelSpace` fails with the validation error exactly when some
row has throttle and brake both strictly positive; otherwise it succeeds and
returns the rows `(steer, throttle - brake)`. -/
theorem C4_validation :
    ∀ a : List GymRow,
      (convert_action_gym_to_models a = Except.error PError.validationError ↔
        ∃ t ∈ a, 0 < t.2.1 ∧ 0 < t.2.2)
      ∧ ((∀ t ∈ a, ¬(0 < t.2.1 ∧ 0 < t.2.2)) →
          convert_action_gym_to_models a = Except.ok (a.map actionRow)) := by
  intro a
  exact ⟨convert_error_iff a, convert_eq_ok a⟩

/-- Witness for C4 at a concrete batch with no offending row. -/
theorem C4_validation_witness :
    convert_action_gym_to_models [((0 : ℚ), (1 : ℚ), (0 : ℚ))] =
      Except.ok [((0 : ℚ), (1 : ℚ))] := by
  rw [(C4_validation [((0 : ℚ), (1 : ℚ), (0 : ℚ))]).2 (by decide)]
  simp [actionRow]

/-- Claim C10: every row produced by `toEnvSpace` satisfies the precondition of
`toModelSpace` (throttle and brake are never both strictly positive), so the
composite never reaches the validation-error branch. -/
theorem C10_env_rows_safe :
    ∀ x : List ModelRow,
      (∀ t ∈ convert_action_models_to_gym x, ¬(0 < t.2.1 ∧ 0 < t.2.2))
      ∧ convert_action_gym_to_models (convert_action_models_to_gym x) ≠
          Except.error PError.validationError := by
  have key : ∀ (x : List ModelRow), ∀ t ∈ convert_action_models_to_gym x,
      ¬(0 < t.2.1 ∧ 0 < t.2.2) := by
    intro x t ht hcontra
    unfold convert_action_models_to_gym at ht
    obtain ⟨p, hpm, hp⟩ := List.mem_map.mp ht
    have hb := badRow_modelsToGymRow p
    rw [hp] at hb
    rw [(badRow_eq_true_iff t).mpr hcontra] at hb
    exact Bool.noConfusion hb
  intro x
  refine ⟨key x, fun hcontra => ?_⟩
  obtain ⟨t, ht, h1, h2⟩ := (convert_error_iff _).mp hcontra
  exact key x t ht ⟨h1, h2⟩

/-- Witness for C10 at a concrete model-space batch with a braking row. -/
theorem C10_env_rows_safe_witness :
    ¬(0 < (modelsToGymRow ((1 : ℚ), (-2 : ℚ))).2.1
        ∧ 0 < (modelsToGymRow ((1 : ℚ), (-2 : ℚ))).2.2)
    ∧ convert_action_gym_to_models (convert_action_models_to_gym [((1 : ℚ), (-2 : ℚ))]) ≠
        Except.error PError.validationError :=
  ⟨(C10_env_rows_safe [((1 : ℚ), (-2 : ℚ))]).1 (modelsToGymRow ((1 : ℚ), (-2 : ℚ)))
      (List.mem_singleton.mpr rfl),
    (C10_env_rows_safe [((1 : ℚ), (-2 : ℚ))]).2⟩

/-- A raw observation frame: an H x W x 3 image.  Pixels are addressed by
row, column and colour channel; numpy uint8 values are modelled as rationals. -/
structure Frame where
  H : ℕ
  W : ℕ
  pix : ℕ → ℕ → Fin 3 → ℚ

/-- An image tensor with an arbitrary channel count, as stored in the
observation buffer (RGB frames or grayscale-collapsed frames). -/
structure ImgN where
  H : ℕ
  W : ℕ
  C : ℕ
  pix : ℕ → ℕ → ℕ → ℚ

/-- A per-frame boolean mask tensor in channel-first layout, as produced for
one frame by `extract_observation_features`: dims records the numpy shape
(channel, height, width), `m` the mask values. -/
structure MaskImg where
  dims : List ℕ
  m : ℕ → ℕ → ℕ → Bool

/-- The full return of `extract_observation_features` on a single frame input:
the added batch dimension is retained, dims is the numpy shape
(batch, channel, height, width). -/
structure MaskTensor where
  dims : List ℕ
  m : ℕ → ℕ → ℕ → ℕ → Bool

/-- The pixel value after the HUD blanking of dataset.py line 72:
`image[:, 65:80, 45:52] = [105, 105, 105]` (executed after the crop to the
first 84 rows, which keeps row indices unchanged). -/
def blankPix (f : Frame) (y x : ℕ) (c : Fin 3) : ℚ :=
  if 65 ≤ y ∧ y < 80 ∧ 45 ≤ x ∧ x < 52 then 105 else f.pix y x c

/-- The chevron/marker mask of line 73: red channel strictly above 150. -/
def chevronMask (f : Frame) (y x : ℕ) : Bool :=
  decide ((150 : ℚ) < blankPix f y x 0)

/-- The drivable-surface mask of line 74: channel mean within 15 of the
neutral gray constant 105. -/
def roadMask (f : Frame) (y x : ℕ) : Bool :=
  decide (|(blankPix f y x 0 + blankPix f y x 1 + blankPix f y x 2) / 3 - 105| < 15)

/-- The per-frame part of `extract_observation_features` (dataset.py lines
55-77): crop to the first 84 rows, blank the HUD rectangle, compute the two
masks and stack them channel-first.  Channel 0 is the chevron mask, channel 1
the road mask, matching `np.stack([chevrons, road], axis=3)` followed by
`np.transpose(masks, (0, 3, 1, 2))`. -/
def extractMaskFrame (f : Frame) : MaskImg :=
  { dims := [2, min f.H 84, f.W],
    m := fun ch y x => if ch = 0 then chevronMask f y x else roadMask f y x }

/-- `extract_observation_features` on a single H x W x 3 frame (the
`len(image.shape) == 3` branch of lines 66-67): a batch dimension of size 1
is inserted and never removed, so the result shape is
(1, 2, min H 84, W). -/
def extract_observation_features (f : Frame) : MaskTensor :=
  { dims := 1 :: (extractMaskFrame f).dims,
    m := fun _b ch y x => (extractMaskFrame f).m ch y x }

lemma blankPix_hud (f : Frame) (y x : ℕ) (c : Fin 3)
    (hy1 : 65 ≤ y) (hy2 : y < 80) (hx1 : 45 ≤ x) (hx2 : x < 52) :
    blankPix f y x c = 105 := by
  unfold blankPix
  rw [if_pos ⟨hy1, hy2, hx1, hx2⟩]

/-- Claim C5 (amended): on a 96 x 96 x 3 frame, whatever its pixel values, the
returned mask tensor has shape (1, 2, 84, 96) — the inserted batch dimension
is retained — and on every pixel of the blanked HUD rectangle the marker flag
is false while the drivable-surface flag is true, because the blanking gray
105 lies inside the road tolerance band. -/
theorem C5_hud_flags (f : Frame) (hH : f.H = 96) (hW : f.W = 96) (y x : ℕ)
    (hy1 : 65 ≤ y) (hy2 : y < 80) (hx1 : 45 ≤ x) (hx2 : x < 52) :
    (extract_observation_features f).dims = [1, 2, 84, 96]
    ∧ (extract_observation_features f).m 0 0 y x = false
    ∧ (extract_observation_features f).m 0 1 y x = true := by
  refine ⟨?_, ?_, ?_⟩
  · show 1 :: [2, min f.H 84, f.W] = [1, 2, 84, 96]
    rw [hH, hW]
    norm_num
  · show chevronMask f y x = false
    unfold chevronMask
    rw [blankPix_hud f y x 0 hy1 hy2 hx1 hx2]
    simp only [decide_eq_false_iff_not]
    norm_num
  · show roadMask f y x = true
    unfold roadMask
    rw [blankPix_hud f y x 0 hy1 hy2 hx1 hx2, blankPix_hud f y x 1 hy1 hy2 hx1 hx2,
      blankPix_hud f y x 2 hy1 hy2 hx1 hx2]
    simp only [decide_eq_true_eq]
    rw [show ((105 : ℚ) + 105 + 105) / 3 - 105 = 0 by norm_num, abs_zero]
    norm_num

/-- A concrete 96 x 96 x 3 frame: nonzero values inside the HUD rectangle and
a red marker pixel inside the crop region. -/
def hudFrame : Frame :=
  { H := 96, W := 96,
    pix := fun y x c =>
      if 65 ≤ y ∧ y < 80 ∧ 45 ≤ x ∧ x < 52 then 200
      else if y = 10 ∧ x = 10 ∧ (c : ℕ) = 0 then 255 else 0 }

/-- Counterexample for C5 as stated: on a frame with the HUD block set and a
red marker inside the crop region, the drivable-surface flag of a HUD pixel is
true (the claim asserts it is false), and the returned shape carries the
retained batch dimension, (1, 2, 84, 96) rather than (2, 84, 96). -/
theorem C5_hud_flags_counterexample :
    (extract_observation_features hudFrame).m 0 1 70 48 = true
    ∧ (extract_observation_features hudFrame).dims = [1, 2, 84, 96] := by
  constructor
  · show roadMask hudFrame 70 48 = true
    unfold roadMask
    rw [blankPix_hud hudFrame 70 48 0 (by norm_num) (by norm_num) (by norm_num) (by norm_num),
      blankPix_hud hudFrame 70 48 1 (by norm_num) (by norm_num) (by norm_num) (by norm_num),
      blankPix_hud hudFrame 70 48 2 (by norm_num) (by norm_num) (by norm_num) (by norm_num)]
    simp only [decide_eq_true_eq]
    rw [show ((105 : ℚ) + 105 + 105) / 3 - 105 = 0 by norm_num, abs_zero]
    norm_num
  · rfl

/-- Witness for C5 (amended) at the concrete frame and a HUD pixel. -/
theorem C5_hud_flags_witness :
    (extract_observation_features hudFrame).dims = [1, 2, 84, 96]
    ∧ (extract_observation_features hudFrame).m 0 0 66 46 = false
    ∧ (extract_observation_features hudFrame).m 0 1 66 46 = true :=
  C5_hud_flags hudFrame rfl rfl 66 46 (by decide) (by decide) (by decide) (by decide)

/-- The Dynaconf configuration consumed by dataset.py: normalization constants,
the colour flag, the shared deque capacity and the balancing bin count.
`sqrtQ` stands for the square root used inside `np.std`; it is supplied
externally because the claims never inspect the value of the wheel-omega
standard deviation, only the shape of the state vector. -/
structure Conf where
  USE_RGB : Bool
  IMITATION_MAX_MEMORY : ℕ
  IMITATION_BALANCE_BINS : ℕ
  OBS_MEAN : ℚ
  OBS_STD : ℚ
  SPEED_MEAN : ℚ
  SPEED_STD : ℚ
  WHEEL_OMEGA_MEAN : ℚ
  WHEEL_OMEGA_STD : ℚ
  WHEEL_OMEGA_STD_MEAN : ℚ
  WHEEL_OMEGA_STD_STD : ℚ
  ANGULAR_VELOCITY_MEAN : ℚ
  ANGULAR_VELOCITY_STD : ℚ
  STEERING_JOINT_ANGLE_MEAN : ℚ
  STEERING_JOINT_ANGLE_STD : ℚ
  CURVATURE_MEAN : ℚ
  CURVATURE_STD : ℚ
  sqrtQ : ℚ → ℚ

/-- Four wheel angular velocities of one timestep (one row of the
`(-1, 4)`-reshaped `wheels_omegas` array). -/
abbrev Wheels := ℚ × ℚ × ℚ × ℚ

/-- `np.std` across the four wheel-omega channels of one timestep
(dataset.py line 114), with the square root supplied by the configuration. -/
def wheelStd (c : Conf) (w : Wheels) : ℚ :=
  ((w.1 - (w.1 + w.2.1 + w.2.2.1 + w.2.2.2) / 4) ^ 2
      + (w.2.1 - (w.1 + w.2.1 + w.2.2.1 + w.2.2.2) / 4) ^ 2
      + (w.2.2.1 - (w.1 + w.2.1 + w.2.2.1 + w.2.2.2) / 4) ^ 2
      + (w.2.2.2 - (w.1 + w.2.1 + w.2.2.1 + w.2.2.2) / 4) ^ 2) / 4
    |> c.sqrtQ

/-- One row of the concatenated state array of `preprocess_input_testing`
(dataset.py lines 110-136): normalized speed, the four normalized wheel
omegas, the normalized wheel-omega standard deviation, normalized angular
velocity and normalized steering joint angle, in that order. -/
def stateRow (c : Conf) (sp : ℚ) (w : Wheels) (av st : ℚ) : List ℚ :=
  [(sp - c.SPEED_MEAN) / c.SPEED_STD,
   (w.1 - c.WHEEL_OMEGA_MEAN) / c.WHEEL_OMEGA_STD,
   (w.2.1 - c.WHEEL_OMEGA_MEAN) / c.WHEEL_OMEGA_STD,
   (w.2.2.1 - c.WHEEL_OMEGA_MEAN) / c.WHEEL_OMEGA_STD,
   (w.2.2.2 - c.WHEEL_OMEGA_MEAN) / c.WHEEL_OMEGA_STD,
   (wheelStd c w - c.WHEEL_OMEGA_STD_MEAN) / c.WHEEL_OMEGA_STD_STD,
   (av - c.ANGULAR_VELOCITY_MEAN) / c.ANGULAR_VELOCITY_STD,
   (st - c.STEERING_JOINT_ANGLE_MEAN) / c.STEERING_JOINT_ANGLE_STD]

/-- Pointwise zip of four equally indexed time series, modelling the row-wise
`np.concatenate` of per-timestep telemetry arrays. -/
def zip4With (f : α → β → γ → δ → ε) : List α → List β → List γ → List δ → List ε
  | a :: as, b :: bs, c :: cs, d :: ds => f a b c d :: zip4With f as bs cs ds
  | _, _, _, _ => []

lemma zip4With_length (f : α → β → γ → δ → ε) :
    ∀ (as : List α) (bs : List β) (cs : List γ) (ds : List δ),
      as.length = bs.length → bs.length = cs.length → cs.length = ds.length →
      (zip4With f as bs cs ds).length = as.length := by
  intro as
  induction as with
  | nil => intro bs cs ds _ _ _; cases bs <;> cases cs <;> cases ds <;> rfl
  | cons a as ih =>
    intro bs cs ds h1 h2 h3
    cases bs with
    | nil => exact absurd h1 (by simp)
    | cons b bs =>
      cases cs with
      | nil => exact absurd h2 (by simp)
      | cons c cs =>
        cases ds with
        | nil => exact absurd h3 (by simp)
        | cons d ds =>
          simp only [zip4With, List.length_cons]
          rw [ih bs cs ds (by simpa using h1) (by simpa using h2) (by simpa using h3)]

/-- One raw trace record handed to `AbstractDataset.append`: per-timestep
series of observation frames, speed, wheel omegas, angular velocity, steering
joint angle, gym-space actions and curvature. -/
structure Record where
  obs : List Frame
  speed : List ℚ
  wheels : List Wheels
  angvel : List ℚ
  steer : List ℚ
  action : List GymRow
  curvature : List ℚ

/-- The alignment actually required for `np.concatenate` at dataset.py lines
127-136 to succeed: the four telemetry series must have equal length.  The
observation, action and curvature series are never length-checked by the
code. -/
def telemetryAligned (r : Record) : Prop :=
  r.speed.length = r.wheels.length ∧ r.wheels.length = r.angvel.length
    ∧ r.angvel.length = r.steer.length

instance (r : Record) : Decidable (telemetryAligned r) := by
  unfold telemetryAligned
  infer_instance

/-- A fully aligned record: all seven per-timestep series have equal length
(the shape promised for trace records by the external interface). -/
def Record.alignedAll (r : Record) : Prop :=
  r.obs.length = r.speed.length ∧ r.speed.length = r.wheels.length
    ∧ r.wheels.length = r.angvel.length ∧ r.angvel.length = r.steer.length
    ∧ r.steer.length = r.action.length ∧ r.action.length = r.curvature.length

instance (r : Record) : Decidable r.alignedAll := by
  unfold Record.alignedAll
  infer_instance

/-- Records whose processing succeeds: the telemetry series are aligned and no
action row triggers the throttle/brake assert. -/
def Record.valid (r : Record) : Prop :=
  telemetryAligned r ∧ ∀ t ∈ r.action, ¬(0 < t.2.1 ∧ 0 < t.2.2)

instance (r : Record) : Decidable r.valid := by
  unfold Record.valid
  infer_instance

/-- An RGB frame stored as-is (the `conf.USE_RGB` branch of append), or its
channel mean stored as a single-channel image (the grayscale branch,
`obs.mean(axis=-1, keepdims=True)`). -/
def storeObs (c : Conf) (f : Frame) : ImgN :=
  if c.USE_RGB then
    { H := f.H, W := f.W, C := 3,
      pix := fun y x ch => if h : ch < 3 then f.pix y x ⟨ch, h⟩ else 0 }
  else
    { H := f.H, W := f.W, C := 1,
      pix := fun y x _ => (f.pix y x 0 + f.pix y x 1 + f.pix y x 2) / 3 }

/-- Channel mean of a stored image (the `obs.mean(axis=-1, keepdims=True)` of
`preprocess_obs`). -/
def chanMean (o : ImgN) (y x : ℕ) : ℚ :=
  (((List.range o.C).map fun k => o.pix y x k).sum) / (o.C : ℚ)

/-- `preprocess_obs` (dataset.py lines 80-92): crop to the first 84 rows,
collapse to one channel when colour is disabled, reorder channel-first (pure
index bookkeeping in this model) and apply the affine pixel normalization. -/
def preprocess_obs (c : Conf) (o : ImgN) : ImgN :=
  { H := min o.H 84, W := o.W, C := if c.USE_RGB then o.C else 1,
    pix := fun y x k =>
      ((if c.USE_RGB then o.pix y x k else chanMean o y x) - c.OBS_MEAN) / c.OBS_STD }

/-- The normalized curvature column of `preprocess_input_training` line 154;
each stored element is the single entry of a `(-1, 1)`-reshaped row. -/
def curvContrib (c : Conf) (r : Record) : List ℚ :=
  r.curvature.map fun v => (v - c.CURVATURE_MEAN) / c.CURVATURE_STD

/-- The batched state array built by `preprocess_input_testing` for a
training record. -/
def stateContrib (c : Conf) (r : Record) : List (List ℚ) :=
  zip4With (stateRow c) r.speed r.wheels r.angvel r.steer

/-- The per-frame mask batch of `preprocess_input_training` line 156. -/
def maskContrib (r : Record) : List MaskImg :=
  r.obs.map extractMaskFrame

/-- The converted action batch on the success path of
`convert_action_gym_to_models`. -/
def actContrib (r : Record) : List ModelRow :=
  r.action.map actionRow

/-- The stored observation batch pushed by append (RGB or grayscale). -/
def obsContrib (c : Conf) (r : Record) : List ImgN :=
  r.obs.map (storeObs c)

/-- The tuple returned by `preprocess_input_training` (dataset.py lines
141-170). -/
structure PreOut where
  obs : List Frame
  state : List (List ℚ)
  curv : List ℚ
  masks : List MaskImg
  act : List ModelRow

/-- `preprocess_input_training` (dataset.py lines 141-170).  The curvature
normalization and the mask extraction are total; building the state array
raises the numpy ValueError when the telemetry series lengths differ (the
`np.concatenate` of mismatched first dimensions), and the action conversion
raises the assert afterwards.  No other length is ever checked. -/
def preprocess_input_training (c : Conf) (r : Record) : Except PError PreOut :=
  if telemetryAligned r then
    match convert_action_gym_to_models r.action with
    | Except.error e => Except.error e
    | Except.ok act =>
      Except.ok { obs := r.obs, state := stateContrib c r, curv := curvContrib c r,
                  masks := maskContrib r, act := act }
  else Except.error PError.lengthError

/-- The last `n` elements of a list, in order: the net effect on a
`deque(maxlen=n)` of extending it with the elements of the list. -/
def takeLastQ (n : ℕ) (l : List α) : List α :=
  (l.reverse.take n).reverse

/-- Extending a bounded deque with a batch of new elements: the deque then
holds the last `n` elements of the concatenation, oldest first. -/
def dequePushAll (n : ℕ) (buf xs : List α) : List α :=
  takeLastQ n (buf ++ xs)

/-- The state of an `AbstractDataset` (dataset.py lines 173-229): five
equally bounded deques plus the lazily created `instance_weights` attribute,
absent (`none`) until `recompute_weights` first runs. -/
structure Dataset where
  observation : List ImgN
  state : List (List ℚ)
  action : List ModelRow
  curvature : List ℚ
  masks : List MaskImg
  instance_weights : Option (List ℚ)

/-- A freshly constructed `AbstractDataset`. -/
def emptyDataset : Dataset :=
  { observation := [], state := [], action := [], curvature := [], masks := [],
    instance_weights := none }

/-- `AbstractDataset.append` (dataset.py lines 183-203), run as the statement
sequence of the source: preprocessing happens first and any of its errors
aborts the call before the five `+=` commits, which then extend every deque
under the shared capacity.  The result is the dataset state when the call
returns or raises, paired with the raised error, if any. -/
def appendRun (c : Conf) (d : Dataset) (r : Record) : Dataset × Option PError :=
  match preprocess_input_training c r with
  | Except.error e => (d, some e)
  | Except.ok out =>
    ({ observation := dequePushAll c.IMITATION_MAX_MEMORY d.observation
          (out.obs.map (storeObs c)),
       state := dequePushAll c.IMITATION_MAX_MEMORY d.state out.state,
       action := dequePushAll c.IMITATION_MAX_MEMORY d.action out.act,
       curvature := dequePushAll c.IMITATION_MAX_MEMORY d.curvature out.curv,
       masks := dequePushAll c.IMITATION_MAX_MEMORY d.masks out.masks,
       instance_weights := d.instance_weights }, none)

/-- A sequence of `append` calls starting from a given dataset state; failing
calls leave the state unchanged, as in the source. -/
def foldAppend (c : Conf) (d : Dataset) (rs : List Record) : Dataset :=
  rs.foldl (fun d r => (appendRun c d r).1) d

/-- Modelled from the spec: `discretize_and_compute_balancing_weights` is
imported from `src/utils/balance.py`, a module not contained in the provided
sources.  Following section 4.4 of the specification, the acceleration
channel is discretized into equal-width bins spanning its observed range and
every sample receives a weight inversely proportional to the occupancy count
of its bin. -/
def discretize_and_compute_balancing_weights (actions : List ModelRow) (bins : ℕ) :
    List ℚ :=
  match actions.map Prod.snd with
  | [] => []
  | a :: rest =>
    let accs := a :: rest
    let lo := rest.foldl min a
    let hi := rest.foldl max a
    let width := (hi - lo) / (bins : ℚ)
    let binOf : ℚ → ℕ := fun v =>
      if width = 0 then 0 else min (bins - 1) (((v - lo) / width).floor.toNat)
    accs.map fun v =>
      1 / (((accs.filter fun u => binOf u = binOf v).length : ℚ))

/-- `AbstractDataset.recompute_weights` (dataset.py lines 205-210). -/
def recompute_weights (c : Conf) (d : Dataset) : Dataset :=
  { d with
    instance_weights :=
      some (discretize_and_compute_balancing_weights d.action c.IMITATION_BALANCE_BINS) }

/-- Python index resolution for a container of length `n`: a negative index
counts from the end. -/
def pyResolve (n : ℕ) (i : ℤ) : ℤ :=
  if i < 0 then i + n else i

/-- Indexing a Python sequence: in-range indices (after negative-index
resolution) return the element, all others raise IndexError. -/
def pyIndex (l : List α) (i : ℤ) : Except GetError α :=
  if h : 0 ≤ pyResolve l.length i ∧ pyResolve l.length i < (l.length : ℤ) then
    Except.ok (l.get ⟨(pyResolve l.length i).toNat, by omega⟩)
  else Except.error GetError.indexError

/-- The fully assembled training sample returned by `__getitem__`:
re-normalized observation, state vector, model-space action, balancing
weight, normalized curvature and mask tensor. -/
abbrev SampleT := ImgN × List ℚ × ModelRow × ℚ × ℚ × MaskImg

/-- The `self.instance_weights[idx]` access of dataset.py line 226: an
`AttributeError` (modelled `stateError`) when the attribute was never
created by `recompute_weights`, otherwise an ordinary indexed access. -/
def weightLookup (d : Dataset) (i : ℤ) : Except GetError ℚ :=
  match d.instance_weights with
  | none => Except.error GetError.stateError
  | some ws => pyIndex ws i

/-- `AbstractDataset.__getitem__` (dataset.py lines 218-229), evaluated in
source order: the observation lookup of line 219 runs first, then the tuple
elements of lines 223-228. -/
def getitem (c : Conf) (d : Dataset) (i : ℤ) : Except GetError SampleT :=
  match pyIndex d.observation i with
  | Except.error e => Except.error e
  | Except.ok o =>
    match pyIndex d.state i with
    | Except.error e => Except.error e
    | Except.ok s =>
      match pyIndex d.action i with
      | Except.error e => Except.error e
      | Except.ok a =>
        match weightLookup d i with
        | Except.error e => Except.error e
        | Except.ok w =>
          match pyIndex d.curvature i with
          | Except.error e => Except.error e
          | Except.ok cv =>
            match pyIndex d.masks i with
            | Except.error e => Except.error e
            | Except.ok mk => Except.ok (preprocess_obs c o, s, a, w, cv, mk)

lemma takeLastQ_length (n : ℕ) (l : List α) : (takeLastQ n l).length = min n l.length := by
  simp [takeLastQ]

lemma takeLastQ_append (n : ℕ) (a b : List α) :
    takeLastQ n (takeLastQ n a ++ b) = takeLastQ n (a ++ b) := by
  unfold takeLastQ
  simp only [List.reverse_append, List.reverse_reverse]
  simp only [List.take_append_eq_append_take]
  rw [List.take_take, Nat.min_eq_left (Nat.sub_le n b.reverse.length)]

lemma preprocess_ok_of_valid (c : Conf) (r : Record) (h : r.valid) :
    preprocess_input_training c r =
      Except.ok { obs := r.obs, state := stateContrib c r, curv := curvContrib c r,
                  masks := maskContrib r, act := actContrib r } := by
  unfold preprocess_input_training
  rw [if_pos h.1, convert_eq_ok r.action h.2]
  rfl

lemma valid_of_preprocess_ok (c : Conf) (r : Record) (out : PreOut)
    (h : preprocess_input_training c r = Except.ok out) : r.valid := by
  unfold preprocess_input_training at h
  by_cases ht : telemetryAligned r
  · rw [if_pos ht] at h
    refine ⟨ht, ?_⟩
    cases hc : convert_action_gym_to_models r.action with
    | error e => rw [hc] at h; exact absurd h (by simp)
    | ok act =>
      unfold convert_action_gym_to_models at hc
      by_cases hany : r.action.any badRow = true
      · rw [if_pos hany] at hc
        exact absurd hc (by simp)
      · intro t htm hcontra
        exact hany (List.any_eq_true.mpr ⟨t, htm, (badRow_eq_true_iff t).mpr hcontra⟩)
  · rw [if_neg ht] at h
    exact absurd h (by simp)

lemma appendRun_valid (c : Conf) (d : Dataset) (r : Record) (h : r.valid) :
    appendRun c d r =
      ({ observation := dequePushAll c.IMITATION_MAX_MEMORY d.observation (obsContrib c r),
         state := dequePushAll c.IMITATION_MAX_MEMORY d.state (stateContrib c r),
         action := dequePushAll c.IMITATION_MAX_MEMORY d.action (actContrib r),
         curvature := dequePushAll c.IMITATION_MAX_MEMORY d.curvature (curvContrib c r),
         masks := dequePushAll c.IMITATION_MAX_MEMORY d.masks (maskContrib r),
         instance_weights := d.instance_weights }, none) := by
  unfold appendRun
  rw [preprocess_ok_of_valid c r h]
  rfl

lemma appendRun_invalid (c : Conf) (d : Dataset) (r : Record) (h : ¬ r.valid) :
    (appendRun c d r).1 = d := by
  unfold appendRun
  cases hp : preprocess_input_training c r with
  | error e => rfl
  | ok out => exact absurd (valid_of_preprocess_ok c r out hp) h

/-- The core length invariant of the five parallel deques. -/
def eqLens (d : Dataset) : Prop :=
  d.observation.length = d.state.length ∧ d.state.length = d.action.length
    ∧ d.action.length = d.curvature.length ∧ d.curvature.length = d.masks.length

lemma eqLens_appendRun (c : Conf) (d : Dataset) (r : Record)
    (hd : eqLens d) (hr : r.alignedAll) : eqLens ((appendRun c d r).1) := by
  by_cases hv : r.valid
  · rw [appendRun_valid c d r hv]
    obtain ⟨h1, h2, h3, h4⟩ := hd
    obtain ⟨a1, a2, a3, a4, a5, a6⟩ := hr
    unfold eqLens dequePushAll
    simp only [takeLastQ_length, List.length_append, obsContrib, stateContrib, actContrib,
      curvContrib, maskContrib, List.length_map]
    rw [zip4With_length (stateRow c) r.speed r.wheels r.angvel r.steer a2 a3 a4]
    omega
  · rw [appendRun_invalid c d r hv]
    exact hd

lemma foldAppend_eqLens (c : Conf) :
    ∀ (rs : List Record) (d : Dataset),
      eqLens d → (∀ r ∈ rs, r.alignedAll) → eqLens (foldAppend c d rs) := by
  intro rs
  induction rs with
  | nil => intro d hd _; exact hd
  | cons r rs ih =>
    intro d hd hall
    show eqLens (foldAppend c ((appendRun c d r).1) rs)
    exact ih _ (eqLens_appendRun c d r hd (hall r (by simp)))
      (fun r2 h2 => hall r2 (by simp [h2]))

/-- Claim C1 (amended): starting from the empty dataset, after every prefix of
a sequence of append calls whose records each have all-equal series lengths,
the five buffered deques have equal length — whether the individual calls
commit or abort.  For records with unequal series lengths the invariant can
break, see the counterexample. -/
theorem C1_equal_lengths (c : Conf) (rs : List Record)
    (hall : ∀ r ∈ rs, r.alignedAll) (n : ℕ) :
    eqLens (foldAppend c emptyDataset (rs.take n)) := by
  apply foldAppend_eqLens
  · exact ⟨rfl, rfl, rfl, rfl⟩
  · intro r hr
    exact hall r (List.take_subset n rs hr)

/-- A trivial 1 x 1 frame with constant pixel value. -/
def mkFrame (v : ℚ) : Frame :=
  { H := 1, W := 1, pix := fun _ _ _ => v }

/-- A configuration with identity normalization, RGB storage, capacity `cap`
and five balancing bins. -/
def mkConf (cap : ℕ) : Conf :=
  { USE_RGB := true, IMITATION_MAX_MEMORY := cap, IMITATION_BALANCE_BINS := 5,
    OBS_MEAN := 0, OBS_STD := 1, SPEED_MEAN := 0, SPEED_STD := 1,
    WHEEL_OMEGA_MEAN := 0, WHEEL_OMEGA_STD := 1,
    WHEEL_OMEGA_STD_MEAN := 0, WHEEL_OMEGA_STD_STD := 1,
    ANGULAR_VELOCITY_MEAN := 0, ANGULAR_VELOCITY_STD := 1,
    STEERING_JOINT_ANGLE_MEAN := 0, STEERING_JOINT_ANGLE_STD := 1,
    CURVATURE_MEAN := 0, CURVATURE_STD := 1, sqrtQ := id }

def conf10 : Conf := mkConf 10

def conf3 : Conf := mkConf 3

/-- A well-formed record with five timesteps and pairwise distinguishable
samples. -/
def r5 : Record :=
  { obs := [mkFrame 0, mkFrame 1, mkFrame 2, mkFrame 3, mkFrame 4],
    speed := [0, 1, 2, 3, 4],
    wheels := [(0, 0, 0, 0), (0, 0, 0, 0), (0, 0, 0, 0), (0, 0, 0, 0), (0, 0, 0, 0)],
    angvel := [0, 0, 0, 0, 0],
    steer := [0, 0, 0, 0, 0],
    action := [(0, 0, 0), (1, 0, 0), (2, 0, 0), (3, 0, 0), (4, 0, 0)],
    curvature := [10, 20, 30, 40, 50] }

/-- Witness for C1 (amended) at a concrete aligned record. -/
theorem C1_equal_lengths_witness :
    eqLens (foldAppend conf3 emptyDataset ([r5].take 1)) :=
  C1_equal_lengths conf3 [r5] (by decide) 1

/-- A record whose observation series is longer than every other series; the
code neither detects this nor rejects it. -/
def rObsBad : Record :=
  { obs := [mkFrame 0, mkFrame 0],
    speed := [0], wheels := [(0, 0, 0, 0)], angvel := [0], steer := [0],
    action := [(0, 0, 0)], curvature := [0] }

/-- Counterexample for C1 as stated: a single append call with a record whose
series lengths disagree leaves the observation deque with 2 entries and the
state deque with 1, so the five sequences do not all have equal length. -/
theorem C1_equal_lengths_counterexample :
    ¬ eqLens (foldAppend conf10 emptyDataset [rObsBad]) := by
  intro h
  exact absurd h.1 (by decide)

/-- Claim C8: append is atomic per record — whenever the call raises, the
dataset is exactly as it was before the call, because every fallible
preprocessing step runs before the first commit into the deques. -/
theorem C8_atomic_append (c : Conf) (d : Dataset) (r : Record) (e : PError)
    (h : (appendRun c d r).2 = some e) : (appendRun c d r).1 = d := by
  unfold appendRun at h ⊢
  cases hp : preprocess_input_training c r with
  | error e2 => rfl
  | ok out =>
    rw [hp] at h
    exact absurd h (by simp)

/-- A record whose only defect is an action row with throttle and brake both
positive. -/
def rBadAction : Record :=
  { obs := [mkFrame 0], speed := [0], wheels := [(0, 0, 0, 0)], angvel := [0],
    steer := [0], action := [(0, 1, 1)], curvature := [0] }

/-- Witness for C8: the rejected record raises the validation error and the
dataset is untouched. -/
theorem C8_atomic_append_witness :
    (appendRun conf10 emptyDataset rBadAction).2 = some PError.validationError
    ∧ (appendRun conf10 emptyDataset rBadAction).1 = emptyDataset := by
  have h2 : (appendRun conf10 emptyDataset rBadAction).2 = some PError.validationError := rfl
  exact ⟨h2, C8_atomic_append conf10 emptyDataset rBadAction PError.validationError h2⟩

/-- Claim C9 (amended): only a mismatch among the four telemetry series
(speed, wheel omegas, angular velocity, steering angle) makes append fail —
with the length error of the underlying concatenation — before any sample is
committed; mismatches involving only the observation, action or curvature
series are not detected (see the counterexample). -/
theorem C9_telemetry_mismatch (c : Conf) (d : Dataset) (r : Record)
    (h : ¬ telemetryAligned r) :
    appendRun c d r = (d, some PError.lengthError) := by
  unfold appendRun preprocess_input_training
  rw [if_neg h]

/-- A record whose speed series is longer than the other telemetry series. -/
def rTelBad : Record :=
  { obs := [mkFrame 0], speed := [0, 0], wheels := [(0, 0, 0, 0)], angvel := [0],
    steer := [0], action := [(0, 0, 0)], curvature := [0] }

/-- Witness for C9 (amended) at a concrete telemetry-mismatched record. -/
theorem C9_telemetry_mismatch_witness :
    appendRun conf10 emptyDataset rTelBad = (emptyDataset, some PError.lengthError) :=
  C9_telemetry_mismatch conf10 emptyDataset rTelBad (by decide)

/-- Counterexample for C9 as stated: a record whose series lengths are not all
equal (two observation frames against one timestep everywhere else) is
appended without any error, and its samples are committed, leaving the deques
desynchronized. -/
theorem C9_telemetry_mismatch_counterexample :
    (appendRun conf10 emptyDataset rObsBad).2 = none
    ∧ (appendRun conf10 emptyDataset rObsBad).1.observation.length = 2
    ∧ (appendRun conf10 emptyDataset rObsBad).1.state.length = 1 :=
  ⟨rfl, rfl, rfl⟩

lemma takeLastQ_nil (n : ℕ) : takeLastQ n ([] : List α) = [] := by
  simp [takeLastQ]

lemma foldAppend_buffers (c : Conf) :
    ∀ (rs : List Record), (∀ r ∈ rs, r.valid) →
    ∀ (d : Dataset) (ao : List ImgN) (as0 : List (List ℚ)) (aa : List ModelRow)
      (ac : List ℚ) (am : List MaskImg),
      d.observation = takeLastQ c.IMITATION_MAX_MEMORY ao →
      d.state = takeLastQ c.IMITATION_MAX_MEMORY as0 →
      d.action = takeLastQ c.IMITATION_MAX_MEMORY aa →
      d.curvature = takeLastQ c.IMITATION_MAX_MEMORY ac →
      d.masks = takeLastQ c.IMITATION_MAX_MEMORY am →
      (foldAppend c d rs).observation
          = takeLastQ c.IMITATION_MAX_MEMORY (ao ++ (rs.map (obsContrib c)).flatten)
      ∧ (foldAppend c d rs).state
          = takeLastQ c.IMITATION_MAX_MEMORY (as0 ++ (rs.map (stateContrib c)).flatten)
      ∧ (foldAppend c d rs).action
          = takeLastQ c.IMITATION_MAX_MEMORY (aa ++ (rs.map actContrib).flatten)
      ∧ (foldAppend c d rs).curvature
          = takeLastQ c.IMITATION_MAX_MEMORY (ac ++ (rs.map (curvContrib c)).flatten)
      ∧ (foldAppend c d rs).masks
          = takeLastQ c.IMITATION_MAX_MEMORY (am ++ (rs.map maskContrib).flatten) := by
  intro rs
  induction rs with
  | nil =>
    intro _ d ao as0 aa ac am h1 h2 h3 h4 h5
    simp only [foldAppend, List.foldl_nil, List.map_nil, List.flatten_nil, List.append_nil]
    exact ⟨h1, h2, h3, h4, h5⟩
  | cons r rs ih =>
    intro hv d ao as0 aa ac am h1 h2 h3 h4 h5
    have hvr : r.valid := hv r (by simp)
    have hstep := appendRun_valid c d r hvr
    have hfold : foldAppend c d (r :: rs) = foldAppend c ((appendRun c d r).1) rs := rfl
    rw [hfold]
    have gen := ih (fun r2 hm => hv r2 (by simp [hm]))
      ((appendRun c d r).1)
      (ao ++ obsContrib c r) (as0 ++ stateContrib c r) (aa ++ actContrib r)
      (ac ++ curvContrib c r) (am ++ maskContrib r)
      (by rw [hstep]
          show dequePushAll c.IMITATION_MAX_MEMORY d.observation (obsContrib c r)
              = takeLastQ c.IMITATION_MAX_MEMORY (ao ++ obsContrib c r)
          rw [h1]
          exact takeLastQ_append _ _ _)
      (by rw [hstep]
          show dequePushAll c.IMITATION_MAX_MEMORY d.state (stateContrib c r)
              = takeLastQ c.IMITATION_MAX_MEMORY (as0 ++ stateContrib c r)
          rw [h2]
          exact takeLastQ_append _ _ _)
      (by rw [hstep]
          show dequePushAll c.IMITATION_MAX_MEMORY d.action (actContrib r)
              = takeLastQ c.IMITATION_MAX_MEMORY (aa ++ actContrib r)
          rw [h3]
          exact takeLastQ_append _ _ _)
      (by rw [hstep]
          show dequePushAll c.IMITATION_MAX_MEMORY d.curvature (curvContrib c r)
              = takeLastQ c.IMITATION_MAX_MEMORY (ac ++ curvContrib c r)
          rw [h4]
          exact takeLastQ_append _ _ _)
      (by rw [hstep]
          show dequePushAll c.IMITATION_MAX_MEMORY d.masks (maskContrib r)
              = takeLastQ c.IMITATION_MAX_MEMORY (am ++ maskContrib r)
          rw [h5]
          exact takeLastQ_append _ _ _)
    simpa [List.map_cons, List.flatten_cons, List.append_assoc] using gen

/-- Claim C2: for every capacity and every sequence of successfully processed
appends whose total sample count exceeds the capacity, the dataset holds
exactly capacity-many samples and every buffer equals the most recent
capacity-many processed samples in arrival order; concretely, one 5-timestep
record appended at capacity 3 yields size 3 and index 0 holds the sample of
timestep 2. -/
theorem C2_capacity_eviction (c : Conf) (rs : List Record)
    (hv : ∀ r ∈ rs, r.valid)
    (hC : c.IMITATION_MAX_MEMORY < ((rs.map (obsContrib c)).flatten).length) :
    ((foldAppend c emptyDataset rs).observation.length = c.IMITATION_MAX_MEMORY
      ∧ (foldAppend c emptyDataset rs).observation
          = takeLastQ c.IMITATION_MAX_MEMORY ((rs.map (obsContrib c)).flatten)
      ∧ (foldAppend c emptyDataset rs).state
          = takeLastQ c.IMITATION_MAX_MEMORY ((rs.map (stateContrib c)).flatten)
      ∧ (foldAppend c emptyDataset rs).action
          = takeLastQ c.IMITATION_MAX_MEMORY ((rs.map actContrib).flatten)
      ∧ (foldAppend c emptyDataset rs).curvature
          = takeLastQ c.IMITATION_MAX_MEMORY ((rs.map (curvContrib c)).flatten)
      ∧ (foldAppend c emptyDataset rs).masks
          = takeLastQ c.IMITATION_MAX_MEMORY ((rs.map maskContrib).flatten))
    ∧ ((foldAppend conf3 emptyDataset [r5]).observation.length = 3
      ∧ (foldAppend conf3 emptyDataset [r5]).curvature = [30, 40, 50]
      ∧ (foldAppend conf3 emptyDataset [r5]).action.get? 0 = some ((2 : ℚ), (0 : ℚ))) := by
  have main := foldAppend_buffers c rs hv emptyDataset [] [] [] [] []
    (takeLastQ_nil _).symm (takeLastQ_nil _).symm (takeLastQ_nil _).symm
    (takeLastQ_nil _).symm (takeLastQ_nil _).symm
  obtain ⟨m1, m2, m3, m4, m5⟩ := main
  simp only [List.nil_append] at m1 m2 m3 m4 m5
  constructor
  · refine ⟨?_, m1, m2, m3, m4, m5⟩
    rw [m1, takeLastQ_length]
    exact Nat.min_eq_left (le_of_lt hC)
  · have hval : r5.valid := by decide
    have h5 := appendRun_valid conf3 emptyDataset r5 hval
    have hfold : foldAppend conf3 emptyDataset [r5] = (appendRun conf3 emptyDataset r5).1 :=
      rfl
    have hcurv : curvContrib conf3 r5 = [10, 20, 30, 40, 50] := by
      simp [curvContrib, r5, conf3, mkConf]
    have hact : actContrib r5 = [(0, 0), (1, 0), (2, 0), (3, 0), (4, 0)] := by
      simp [actContrib, r5, actionRow]
    refine ⟨?_, ?_, ?_⟩
    · rw [hfold, h5]
      rfl
    · rw [hfold, h5]
      show dequePushAll conf3.IMITATION_MAX_MEMORY emptyDataset.curvature
          (curvContrib conf3 r5) = [30, 40, 50]
      rw [hcurv]
      rfl
    · rw [hfold, h5]
      show (dequePushAll conf3.IMITATION_MAX_MEMORY emptyDataset.action
          (actContrib r5)).get? 0 = some ((2 : ℚ), (0 : ℚ))
      rw [hact]
      rfl

/-- Witness for C2 at one concrete 5-timestep record and capacity 3. -/
theorem C2_capacity_eviction_witness :
    (foldAppend conf3 emptyDataset [r5]).observation.length = conf3.IMITATION_MAX_MEMORY
    ∧ (foldAppend conf3 emptyDataset [r5]).curvature
        = takeLastQ conf3.IMITATION_MAX_MEMORY (([r5].map (curvContrib conf3)).flatten) :=
  ⟨(C2_capacity_eviction conf3 [r5] (by decide) (by decide)).1.1,
   (C2_capacity_eviction conf3 [r5] (by decide) (by decide)).1.2.2.2.2.1⟩

lemma pyIndex_eq_error_iff (l : List α) (i : ℤ) :
    pyIndex l i = Except.error GetError.indexError ↔
      (i < -(l.length : ℤ) ∨ (l.length : ℤ) ≤ i) := by
  unfold pyIndex
  by_cases h : 0 ≤ pyResolve l.length i ∧ pyResolve l.length i < (l.length : ℤ)
  · rw [dif_pos h]
    have hpr : ¬(i < -(l.length : ℤ) ∨ (l.length : ℤ) ≤ i) := by
      unfold pyResolve at h
      split_ifs at h <;> omega
    constructor
    · intro hcontra
      exact absurd hcontra (by simp)
    · intro hcontra
      exact absurd hcontra hpr
  · rw [dif_neg h]
    have hpr : i < -(l.length : ℤ) ∨ (l.length : ℤ) ≤ i := by
      unfold pyResolve at h
      split_ifs at h <;> omega
    exact ⟨fun _ => hpr, fun _ => rfl⟩

lemma pyIndex_ok_of_range (l : List α) (i : ℤ)
    (h1 : -(l.length : ℤ) ≤ i) (h2 : i < (l.length : ℤ)) :
    ∃ a, pyIndex l i = Except.ok a := by
  have hc : 0 ≤ pyResolve l.length i ∧ pyResolve l.length i < (l.length : ℤ) := by
    unfold pyResolve
    split_ifs <;> omega
  unfold pyIndex
  rw [dif_pos hc]
  exact ⟨_, rfl⟩

lemma weightLookup_none (d : Dataset) (i : ℤ) (h : d.instance_weights = none) :
    weightLookup d i = Except.error GetError.stateError := by
  unfold weightLookup
  rw [h]

lemma weightLookup_some (d : Dataset) (ws : List ℚ) (i : ℤ)
    (h : d.instance_weights = some ws) : weightLookup d i = pyIndex ws i := by
  unfold weightLookup
  rw [h]

lemma appendRun_weights (c : Conf) (d : Dataset) (r : Record) :
    ((appendRun c d r).1).instance_weights = d.instance_weights := by
  unfold appendRun
  cases hp : preprocess_input_training c r with
  | error e => rfl
  | ok out => rfl

lemma foldAppend_weights (c : Conf) :
    ∀ (rs : List Record) (d : Dataset),
      (foldAppend c d rs).instance_weights = d.instance_weights := by
  intro rs
  induction rs with
  | nil => intro d; rfl
  | cons r rs ih =>
    intro d
    show (foldAppend c ((appendRun c d r).1) rs).instance_weights = d.instance_weights
    rw [ih, appendRun_weights]

/-- Claim C7: on every dataset built by append calls on aligned records, with
`recompute_weights` never called, any in-range access fails with the state
error: the three leading lookups succeed and the access to the never-created
`instance_weights` attribute raises. -/
theorem C7_get_before_weights (c : Conf) (rs : List Record)
    (hall : ∀ r ∈ rs, r.alignedAll) (i : ℤ) (h0 : 0 ≤ i)
    (hn : i < ((foldAppend c emptyDataset rs).observation.length : ℤ)) :
    getitem c (foldAppend c emptyDataset rs) i = Except.error GetError.stateError := by
  set d := foldAppend c emptyDataset rs with hd
  have hlens : eqLens d := foldAppend_eqLens c rs emptyDataset ⟨rfl, rfl, rfl, rfl⟩ hall
  have hw : d.instance_weights = none := foldAppend_weights c rs emptyDataset
  obtain ⟨hl1, hl2, hl3, hl4⟩ := hlens
  obtain ⟨o, ho⟩ := pyIndex_ok_of_range d.observation i (by omega) hn
  obtain ⟨s, hs⟩ := pyIndex_ok_of_range d.state i (by omega)
    (by rw [← hl1]; exact hn)
  obtain ⟨a, ha⟩ := pyIndex_ok_of_range d.action i (by omega)
    (by rw [← hl2, ← hl1]; exact hn)
  unfold getitem
  rw [ho, hs, ha, weightLookup_none d i hw]

/-- Witness for C7 on a concrete non-empty dataset with no weight
computation. -/
theorem C7_get_before_weights_witness :
    getitem conf10 (foldAppend conf10 emptyDataset [r5]) 0 =
      Except.error GetError.stateError :=
  C7_get_before_weights conf10 [r5] (by decide) 0 (by decide) (by decide)

/-- Claim C6 (amended): on a dataset whose five buffers and weight array all
have length n, `get i` fails with IndexError exactly when `i < -n` or
`i >= n` — Python resolves indices in `[-n, -1]` to `n + i` instead of
raising — and every access with `0 <= i < n` succeeds. -/
theorem C6_index_errors (c : Conf) (d : Dataset) (ws : List ℚ)
    (hw : d.instance_weights = some ws)
    (h1 : d.state.length = d.observation.length)
    (h2 : d.action.length = d.observation.length)
    (h3 : ws.length = d.observation.length)
    (h4 : d.curvature.length = d.observation.length)
    (h5 : d.masks.length = d.observation.length) (i : ℤ) :
    (getitem c d i = Except.error GetError.indexError ↔
      (i < -(d.observation.length : ℤ) ∨ (d.observation.length : ℤ) ≤ i))
    ∧ (0 ≤ i → i < (d.observation.length : ℤ) → ∃ s, getitem c d i = Except.ok s) := by
  by_cases hr : -(d.observation.length : ℤ) ≤ i ∧ i < (d.observation.length : ℤ)
  · obtain ⟨o, ho⟩ := pyIndex_ok_of_range d.observation i hr.1 hr.2
    obtain ⟨s, hs⟩ := pyIndex_ok_of_range d.state i (by rw [h1]; exact hr.1)
      (by rw [h1]; exact hr.2)
    obtain ⟨a, ha⟩ := pyIndex_ok_of_range d.action i (by rw [h2]; exact hr.1)
      (by rw [h2]; exact hr.2)
    obtain ⟨w, hww⟩ := pyIndex_ok_of_range ws i (by rw [h3]; exact hr.1)
      (by rw [h3]; exact hr.2)
    obtain ⟨cv, hcv⟩ := pyIndex_ok_of_range d.curvature i (by rw [h4]; exact hr.1)
      (by rw [h4]; exact hr.2)
    obtain ⟨mk, hmk⟩ := pyIndex_ok_of_range d.masks i (by rw [h5]; exact hr.1)
      (by rw [h5]; exact hr.2)
    have hget : getitem c d i = Except.ok (preprocess_obs c o, s, a, w, cv, mk) := by
      unfold getitem
      rw [ho, hs, ha, weightLookup_some d ws i hw, hww, hcv, hmk]
    refine ⟨⟨fun hcontra => ?_, fun hcontra => ?_⟩, fun _ _ => ⟨_, hget⟩⟩
    · rw [hget] at hcontra
      exact Except.noConfusion hcontra
    · exact absurd hr (by omega)
  · have herr : pyIndex d.observation i = Except.error GetError.indexError := by
      rw [pyIndex_eq_error_iff]
      omega
    have hget : getitem c d i = Except.error GetError.indexError := by
      unfold getitem
      rw [herr]
    refine ⟨⟨fun _ => by omega, fun _ => hget⟩, fun hp1 hp2 => absurd ⟨by omega, hp2⟩ hr⟩

/-- A dataset of five samples whose weights were computed at the current
size. -/
def d5w : Dataset := recompute_weights conf10 (foldAppend conf10 emptyDataset [r5])

/-- Witness for C6 (amended) at the out-of-range index 5 on a 5-sample
dataset. -/
theorem C6_index_errors_witness :
    (getitem conf10 d5w 5 = Except.error GetError.indexError ↔
      ((5 : ℤ) < -(d5w.observation.length : ℤ) ∨ (d5w.observation.length : ℤ) ≤ 5))
    ∧ ((0 : ℤ) ≤ 5 → (5 : ℤ) < (d5w.observation.length : ℤ) →
        ∃ s, getitem conf10 d5w 5 = Except.ok s) :=
  C6_index_errors conf10 d5w
    (discretize_and_compute_balancing_weights
      (foldAppend conf10 emptyDataset [r5]).action conf10.IMITATION_BALANCE_BINS)
    rfl (by decide) (by decide) (by decide) (by decide) (by decide) 5

/-- Success marker of an access, used only to state counterexamples. -/
def isOkE (e : Except GetError SampleT) : Bool :=
  match e with
  | Except.ok _ => true
  | Except.error _ => false

/-- Counterexample for C6 as stated: on a non-empty weighted dataset of size
5, the access at index -1 does not raise IndexError (the claim asserts every
negative index fails): Python negative indexing returns the last sample. -/
theorem C6_index_errors_counterexample :
    isOkE (getitem conf10 d5w (-1)) = true ∧ d5w.observation.length = 5 :=
  ⟨rfl, rfl⟩

end CarRace
